import Mathlib

/-!
Verification development for the PlexBot feedback-aggregation pipeline.

The definitions below are a shallow embedding of the repository's core:
the free-tier quota tracker (`free-tier-optimizations`), the rule-based
classifier and aggregator (`feedback-aggregator`), and the OSI-layer
health scorer (`network-visualizer`).

Modelling conventions:
* JavaScript strings are Lean `String`s; `toLowerCase` is mapped over
  characters (all relevant keywords are ASCII), `includes` is substring
  containment, `.length`/`substring` count characters.
* Timestamps (`created_at`, `Date.getTime()`, the day-start boundary)
  are modelled as `Nat` epoch values; ISO/locale date rendering, which no
  claim depends on, renders the numeral.
* The open `metadata` map is modelled by the fields the core reads
  (`labels`, `priority`, `state`); unread source-specific fields are
  dropped.
* Fallible external gateways (KV cache, D1 database, Workers AI) are
  modelled with `Except Unit`-valued behaviours supplied by an
  environment record; JSON (de)serialisation of cached payloads is
  modelled as the identity on typed payloads, and the JSON parse of the
  free-form AI sentiment response is an environment-provided function.
* The in-memory usage cache of `FreeTierManager` holds a single entry
  for the key `ai:tokens:used` on the paths the claims touch, so the
  quota state is that entry (`Option UsageEntry`), threaded explicitly.
-/

/-! ### String helpers (JS `includes` / `toLowerCase`) -/

/-- `leadsWith p s` is true when the char list `p` is an initial segment of `s`. -/
def leadsWith : List Char → List Char → Bool
  | [], _ => true
  | _ :: _, [] => false
  | p :: ps, c :: cs => p == c && leadsWith ps cs

/-- `occursIn needle hay` is true when `needle` occurs contiguously inside `hay`. -/
def occursIn (needle : List Char) : List Char → Bool
  | [] => leadsWith needle []
  | c :: cs => leadsWith needle (c :: cs) || occursIn needle cs

/-- JS `s.includes(pat)`: substring containment. -/
def strIncludes (s pat : String) : Bool :=
  occursIn pat.toList s.toList

/-- JS `s.toLowerCase()` (ASCII-faithful). -/
def lowerStr (s : String) : String :=
  String.mk (s.toList.map Char.toLower)

/-- JS `s.length` in UTF-16 units; all modelled text is ASCII, so char count. -/
def strLen (s : String) : Nat :=
  s.toList.length

/-- JS `s.substring(0, n)`. -/
def strTake (s : String) (n : Nat) : String :=
  String.mk (s.toList.take n)

/-! ### Data model (`feedback-aggregator`: `FeedbackItem`) -/

/-- The subset of the open `metadata` map that the core reads. -/
structure Metadata where
  labels : Option (List String)
  priority : Option String
  state : Option String
  deriving Repr, DecidableEq

/-- A feedback record as stored in D1 (`FeedbackItem` in the source). -/
structure FeedbackItem where
  id : String
  source_type : String
  source_id : String
  title : String
  content : String
  author : String
  created_at : Nat
  metadata : Metadata
  deriving Repr, DecidableEq

/-! ### Quota tracker (`free-tier-optimizations`: `CLOUDFLARE_LIMITS`, `FreeTierManager`) -/

/-- The free-tier limit constants object. -/
structure CloudflareLimits where
  AI_TOKENS_PER_DAY : Nat
  AI_RESERVED_TOKENS : Nat
  D1_ROWS_READ_MONTHLY : Nat
  D1_ROWS_WRITTEN_MONTHLY : Nat
  D1_RESERVED_READS : Nat
  D1_RESERVED_WRITES : Nat
  KV_READS_DAILY : Nat
  KV_WRITES_DAILY : Nat
  KV_RESERVED_READS : Nat
  KV_RESERVED_WRITES : Nat
  R2_STORAGE_GB : Nat
  R2_OPERATIONS_MONTHLY : Nat
  R2_RESERVED_OPERATIONS : Nat
  WORKERS_REQUESTS_DAILY : Nat
  WORKERS_RESERVED_REQUESTS : Nat
  deriving Repr

/-- `CLOUDFLARE_LIMITS` from the source. -/
def CLOUDFLARE_LIMITS : CloudflareLimits :=
  { AI_TOKENS_PER_DAY := 100000
    AI_RESERVED_TOKENS := 10000
    D1_ROWS_READ_MONTHLY := 500000
    D1_ROWS_WRITTEN_MONTHLY := 100000
    D1_RESERVED_READS := 50000
    D1_RESERVED_WRITES := 10000
    KV_READS_DAILY := 100000
    KV_WRITES_DAILY := 1000
    KV_RESERVED_READS := 10000
    KV_RESERVED_WRITES := 100
    R2_STORAGE_GB := 10
    R2_OPERATIONS_MONTHLY := 100000
    R2_RESERVED_OPERATIONS := 10000
    WORKERS_REQUESTS_DAILY := 100000
    WORKERS_RESERVED_REQUESTS := 10000 }

/-- One entry of `FreeTierManager.usageCache`: `{ count, resetTime }`. -/
structure UsageEntry where
  count : Nat
  resetTime : Nat
  deriving Repr, DecidableEq

/-- `usageCache.get(key)?.resetTime` for the (possibly absent) entry. -/
def quotaResetTime : Option UsageEntry → Option Nat
  | some e => some e.resetTime
  | none => none

/-- `usageCache.get(key)?.count || 0`. -/
def quotaCount : Option UsageEntry → Nat
  | some e => e.count
  | none => 0

/-- The reset-on-new-day step shared by the tracker's checks: if the stored
`resetTime` differs from today's `dayStart` the entry is replaced by
`{ count: 0, resetTime: dayStart }`. -/
def rolloverQuota (st : Option UsageEntry) (dayStart : Nat) : Option UsageEntry :=
  if quotaResetTime st = some dayStart then st else some ⟨0, dayStart⟩

/-- `FreeTierManager.canMakeAIRequest`: applies the day rollover, then is true
iff `currentUsage + estimatedTokens < AI_TOKENS_PER_DAY - AI_RESERVED_TOKENS`.
Returns the decision together with the updated usage entry. -/
def canMakeAIRequest (st : Option UsageEntry) (dayStart : Nat) (estimatedTokens : Nat) :
    Bool × Option UsageEntry :=
  let st' := rolloverQuota st dayStart
  (decide (quotaCount st' + estimatedTokens <
    CLOUDFLARE_LIMITS.AI_TOKENS_PER_DAY - CLOUDFLARE_LIMITS.AI_RESERVED_TOKENS), st')

/-- `FreeTierManager.recordAITokensUsed`: adds `tokens` to the current-window
count, or starts a fresh entry `{ count: tokens, resetTime: dayStart }` when
the entry is absent or from a previous window. -/
def recordAITokensUsed (st : Option UsageEntry) (dayStart : Nat) (tokens : Nat) :
    Option UsageEntry :=
  match st with
  | none => some ⟨tokens, dayStart⟩
  | some e =>
    if e.resetTime = dayStart then some ⟨e.count + tokens, e.resetTime⟩
    else some ⟨tokens, dayStart⟩

/-! ### `conservativeAI` helpers -/

/-- `conservativeAI.truncateForAI`. -/
def truncateForAI (text : String) (maxLength : Nat) : String :=
  if maxLength < strLen text then strTake text maxLength ++ "..." else text

/-- `conservativeAI.estimateTokens`: `Math.ceil(text.length / 4)`. -/
def estimateTokens (text : String) : Nat :=
  (strLen text + 3) / 4

/-! ### Rule-based classifier (`feedback-aggregator`) -/

/-- `metadata.labels || []`. -/
def itemLabels (f : FeedbackItem) : List String :=
  f.metadata.labels.getD []

/-- `FeedbackAggregator.calculateSeverity`: starts at 1, applies the fixed
additive rules over `(content + title).toLowerCase()` and the labels, and is
capped at 5 by `Math.min`. -/
def calculateSeverity (f : FeedbackItem) : Nat :=
  let content := lowerStr (f.content ++ f.title)
  let labels := itemLabels f
  let s :=
    1 +
    (if labels.contains "critical" || strIncludes content "security" ||
        strIncludes content "vulnerability" then 3 else 0) +
    (if strIncludes content "crash" || strIncludes content "data loss" then 2 else 0) +
    (if labels.contains "blocking" || strIncludes content "blocking" then 2 else 0) +
    (if f.metadata.priority == some "high" || labels.contains "high" then 1 else 0) +
    (if f.source_type == "bug-report" then 1 else 0) +
    (if f.source_type == "security-researcher" then 2 else 0)
  min s 5

/-- Modelled from the spec (section 4.3 severity rules, for comparison with
`calculateSeverity`): the same additive bands, but the +1 band is triggered
only by "priority is high", as the spec sentence states — not by a `high`
label. -/
def severitySpec (f : FeedbackItem) : Nat :=
  let content := lowerStr (f.content ++ f.title)
  let labels := itemLabels f
  let s :=
    1 +
    (if labels.contains "critical" || strIncludes content "security" ||
        strIncludes content "vulnerability" then 3 else 0) +
    (if strIncludes content "crash" || strIncludes content "data loss" then 2 else 0) +
    (if labels.contains "blocking" || strIncludes content "blocking" then 2 else 0) +
    (if f.metadata.priority == some "high" then 1 else 0) +
    (if f.source_type == "bug-report" then 1 else 0) +
    (if f.source_type == "security-researcher" then 2 else 0)
  min s 5

/-- The fixed critical-keyword set of `extractCriticalIssues`. -/
def criticalKeywords : List String :=
  ["security", "vulnerability", "sql-injection", "crash", "data loss",
   "memory leak", "performance degradation", "blocking", "critical",
   "emergency", "breach", "exploit"]

/-- The filter predicate of `extractCriticalIssues`: some critical keyword
occurs in the lowered content, the lowered title, or (substring-wise) in a
lowered label. -/
def isCriticalRecord (f : FeedbackItem) : Bool :=
  let content := lowerStr f.content
  let title := lowerStr f.title
  let labels := itemLabels f
  criticalKeywords.any fun kw =>
    strIncludes content kw || strIncludes title kw ||
    labels.any fun l => strIncludes (lowerStr l) kw

/-- The comparator of `extractCriticalIssues` as a relation: `a` may precede
`b` when `a` has strictly higher severity, or equal severity and a
`created_at` at least as recent. -/
def critBefore (a b : FeedbackItem) : Prop :=
  calculateSeverity b < calculateSeverity a ∨
    (calculateSeverity a = calculateSeverity b ∧ b.created_at ≤ a.created_at)

instance : DecidableRel critBefore := fun _ _ =>
  inferInstanceAs (Decidable (_ ∨ _))

instance : IsTotal FeedbackItem critBefore where
  total a b := by
    rcases Nat.lt_trichotomy (calculateSeverity a) (calculateSeverity b) with h | h | h
    · exact Or.inr (Or.inl h)
    · rcases Nat.le_total b.created_at a.created_at with h2 | h2
      · exact Or.inl (Or.inr ⟨h, h2⟩)
      · exact Or.inr (Or.inr ⟨h.symm, h2⟩)
    · exact Or.inl (Or.inl h)

instance : IsTrans FeedbackItem critBefore where
  trans a b c hab hbc := by
    rcases hab with h1 | ⟨h1, h1t⟩ <;> rcases hbc with h2 | ⟨h2, h2t⟩
    · exact Or.inl (h2.trans h1)
    · exact Or.inl (h2 ▸ h1)
    · exact Or.inl (h1 ▸ h2)
    · exact Or.inr ⟨h1.trans h2, h2t.trans h1t⟩

/-- The filtered, sorted, truncated record list inside `extractCriticalIssues`
(before string rendering). -/
def criticalSorted (feedback : List FeedbackItem) : List FeedbackItem :=
  ((feedback.filter isCriticalRecord).insertionSort critBefore).take 8

/-- The rendering `` `${f.title} (${f.source_type})` ``. -/
def renderCritical (f : FeedbackItem) : String :=
  f.title ++ " (" ++ f.source_type ++ ")"

/-- `FeedbackAggregator.extractCriticalIssues`. -/
def extractCriticalIssues (feedback : List FeedbackItem) : List String :=
  (criticalSorted feedback).map renderCritical

/-! ### Layer health scorer (`network-visualizer`) -/

inductive LayerStatus where
  | healthy
  | warning
  | critical
  deriving Repr, DecidableEq

structure NetworkLayer where
  name : String
  status : LayerStatus
  issueCount : Nat
  description : String
  deriving Repr, DecidableEq

/-- The per-layer status rule applied after counting: critical at 5 or more
issues, warning at 2 or more, healthy otherwise. -/
def layerStatusFor (issueCount : Nat) : LayerStatus :=
  if 5 ≤ issueCount then .critical
  else if 2 ≤ issueCount then .warning
  else .healthy

/-- The text a record is matched on in `analyzeNetworkLayers`:
`(item.content || item.title || '').toLowerCase()`. -/
def layerText (f : FeedbackItem) : String :=
  lowerStr (if f.content == "" then f.title else f.content)

/-- Number of records whose analysed text contains one of the layer's
keywords. -/
def countLayer (keywords : List String) (feedback : List FeedbackItem) : Nat :=
  feedback.countP fun f => keywords.any fun kw => strIncludes (layerText f) kw

def physicalKeywords : List String := ["cable", "connector", "fiber", "physical", "hardware"]

def dataLinkKeywords : List String := ["mac", "switch", "vlan", "bridge", "ethernet"]

def networkLayerKeywords : List String := ["ip", "routing", "subnet", "arp", "icmp", "ipv6"]

def transportKeywords : List String := ["tcp", "udp", "port", "qos", "congestion"]

def applicationKeywords : List String := ["http", "dns", "snmp", "monitoring", "prometheus"]

/-- Security matches increment both the Session and the Presentation layer. -/
def securityKeywords : List String := ["security", "vulnerability", "injection", "attack"]

def mkLayer (name description : String) (issueCount : Nat) : NetworkLayer :=
  { name := name, status := layerStatusFor issueCount,
    issueCount := issueCount, description := description }

/-- `NetworkVisualizer.analyzeNetworkLayers`: the seven layers in insertion
order with their issue counts and derived statuses. The `metadata` parse in
the loop body is dead code (its value is never read) and is not modelled. -/
def analyzeNetworkLayers (feedback : List FeedbackItem) : List NetworkLayer :=
  [ mkLayer "Physical Layer" "Cabling, connectors, signal transmission"
      (countLayer physicalKeywords feedback),
    mkLayer "Data Link Layer" "MAC addresses, switches, VLANs"
      (countLayer dataLinkKeywords feedback),
    mkLayer "Network Layer" "IP addressing, routing, subnetting"
      (countLayer networkLayerKeywords feedback),
    mkLayer "Transport Layer" "TCP/UDP, port management, QoS"
      (countLayer transportKeywords feedback),
    mkLayer "Session Layer" "Session management, authentication"
      (countLayer securityKeywords feedback),
    mkLayer "Presentation Layer" "Data formatting, encryption"
      (countLayer securityKeywords feedback),
    mkLayer "Application Layer" "HTTP, DNS, monitoring protocols"
      (countLayer applicationKeywords feedback) ]

/-- `NetworkVisualizer.calculateHealthScore`:
`max(0, min(100, 100 - 5*totalIssues - 15*criticalCount - 5*warningCount))`. -/
def calculateHealthScore (layers : List NetworkLayer) : Int :=
  let totalIssues : Nat := layers.foldl (fun sum layer => sum + layer.issueCount) 0
  let criticalCount : Nat := (layers.filter fun l => l.status == .critical).length
  let warningCount : Nat := (layers.filter fun l => l.status == .warning).length
  let score : Int := 100 - 5 * (totalIssues : Int) - 15 * (criticalCount : Int) -
    5 * (warningCount : Int)
  max 0 (min 100 score)

/-- Modelled from the spec (section 4.5): `clamp(v, lo, hi)`. -/
def clampSpec (v lo hi : Int) : Int :=
  min hi (max lo v)

/-! ### Result types of the aggregator -/

structure FeedbackSummary where
  totalItems : Nat
  sources : List String
  dateRange : String
  topCategories : List String
  averageSentiment : String
  criticalIssues : Nat
  featureRequests : Nat
  deriving Repr, DecidableEq

/-- The dynamic sentiment-trends object. Fields a given branch leaves
undefined are `none` (the denied branch sets only `overall` and `trends`,
the catch branch everything but `trends`). -/
structure SentimentAnalysis where
  overall : Option String
  key_concerns : Option (List String)
  positive_signals : Option (List String)
  urgency_level : Option String
  trends : Option (List String)
  deriving Repr, DecidableEq

structure CategoryEntry where
  name : String
  priority : String
  count : Nat
  items : List String
  latestUpdate : Nat
  deriving Repr, DecidableEq

structure PriorityMatrix where
  urgent : List CategoryEntry
  high : List CategoryEntry
  medium : List CategoryEntry
  low : List CategoryEntry
  deriving Repr, DecidableEq

structure JourneyStage where
  stage : String
  feedbackCount : Nat
  satisfaction : String
  deriving Repr, DecidableEq

structure FeatureAdoption where
  feature : String
  mentions : Nat
  sentiment : String
  deriving Repr, DecidableEq

structure UserJourneyInsights where
  journeyStages : List JourneyStage
  painPoints : List String
  featureAdoption : List FeatureAdoption
  deriving Repr, DecidableEq

/-- The full insights object returned by `generateInsights` (the source
widens the declared `FeedbackInsights` interface with the last three fields
via a cast). -/
structure FeedbackInsights where
  criticalIssues : List String
  trendingTopics : List String
  recommendations : List String
  priorityActions : List String
  sentimentAnalysis : SentimentAnalysis
  priorityMatrix : PriorityMatrix
  userJourneyInsights : UserJourneyInsights
  deriving Repr, DecidableEq

/-- The full visualization object returned by `createVisualizationData`
(the source widens the declared interface with `warningLayers`,
`visualization` and `healthScore` via a cast). -/
structure NetworkVisualization where
  layerStatus : List NetworkLayer
  criticalLayers : List String
  warningLayers : List String
  issueDistribution : String
  visualization : String
  lastUpdated : String
  healthScore : Int
  deriving Repr, DecidableEq

/-! ### Pure classifier functions over a batch -/

/-- Sort key "count descending", as a relation usable by `insertionSort`. -/
def countDesc {α : Type} (count : α → Nat) (a b : α) : Prop :=
  count b ≤ count a

instance {α : Type} (count : α → Nat) : DecidableRel (countDesc count) := fun _ _ =>
  Nat.decLe _ _

/-- Ascending `Nat` order for the date sort in `analyzeFeedbackSummary`. -/
def natAsc (a b : Nat) : Prop := a ≤ b

instance : DecidableRel natAsc := fun _ _ => Nat.decLe _ _

/-- Bump a tally key by one, inserting it at the end on first occurrence
(JS object insertion order). -/
def bumpTally (tally : List (String × Nat)) (key : String) : List (String × Nat) :=
  if tally.any fun p => p.1 == key then
    tally.map fun p => if p.1 == key then (p.1, p.2 + 1) else p
  else tally ++ [(key, 1)]

/-- One record's contribution in `categorizeFeedback`: every label, then the
five derived keyword categories. -/
def tallyRecord (tally : List (String × Nat)) (f : FeedbackItem) : List (String × Nat) :=
  let tally := (itemLabels f).foldl bumpTally tally
  let content := lowerStr f.content
  let tally := if strIncludes content "docker" || strIncludes content "container" then
    bumpTally tally "docker" else tally
  let tally := if strIncludes content "performance" || strIncludes content "cpu" ||
      strIncludes content "memory" then bumpTally tally "performance" else tally
  let tally := if strIncludes content "security" || strIncludes content "vulnerability" then
    bumpTally tally "security" else tally
  let tally := if strIncludes content "feature" || strIncludes content "enhancement" then
    bumpTally tally "features" else tally
  if strIncludes content "network" || strIncludes content "connectivity" then
    bumpTally tally "network" else tally

/-- `FeedbackAggregator.categorizeFeedback`: tally, then sort by count
descending. -/
def categorizeFeedback (feedback : List FeedbackItem) : List (String × Nat) :=
  (feedback.foldl tallyRecord []).insertionSort (countDesc Prod.snd)

/-- `FeedbackAggregator.addToCategory` (creation plus the unconditional
increment/push/latest-update step that follows it). -/
def bumpCategory (c : CategoryEntry) (f : FeedbackItem) : CategoryEntry :=
  { c with
    count := c.count + 1
    items := c.items ++ [f.title]
    latestUpdate := if c.latestUpdate < f.created_at then f.created_at else c.latestUpdate }

def addToCategory (categories : List CategoryEntry) (name priority : String)
    (f : FeedbackItem) : List CategoryEntry :=
  if categories.any fun c => c.name == name then
    categories.map fun c => if c.name == name then bumpCategory c f else c
  else
    categories ++
      [bumpCategory
        { name := name
          priority := priority
          count := 0
          items := []
          latestUpdate := f.created_at } f]

/-- Loop body of `categorizeFeedbackAdvanced`. -/
def categorizeOneAdvanced (categories : List CategoryEntry) (f : FeedbackItem) :
    List CategoryEntry :=
  let content := lowerStr f.content
  let labels := itemLabels f
  let categories := if strIncludes content "security" || strIncludes content "vulnerability" ||
      labels.contains "security" then addToCategory categories "security" "urgent" f
    else categories
  let categories := if strIncludes content "performance" || strIncludes content "slow" ||
      strIncludes content "cpu" || labels.contains "performance" then
    addToCategory categories "performance" "high" f else categories
  let categories := if strIncludes content "docker" || strIncludes content "arm64" ||
      strIncludes content "ipv6" || labels.contains "compatibility" then
    addToCategory categories "compatibility" "medium" f else categories
  let categories := if strIncludes content "feature" || strIncludes content "enhancement" ||
      labels.contains "enhancement" then addToCategory categories "features" "medium" f
    else categories
  if strIncludes content "usability" || strIncludes content "ui" ||
      strIncludes content "dashboard" || labels.contains "usability" then
    addToCategory categories "usability" "low" f else categories

def categorizeFeedbackAdvanced (feedback : List FeedbackItem) : List CategoryEntry :=
  feedback.foldl categorizeOneAdvanced []

/-- `FeedbackAggregator.generatePriorityMatrix` (no AI despite living on the
enrichment path: purely rule-based). -/
def generatePriorityMatrix (feedback : List FeedbackItem) : PriorityMatrix :=
  let categories := categorizeFeedbackAdvanced feedback
  { urgent := categories.filter fun c => c.priority == "urgent"
    high := categories.filter fun c => c.priority == "high"
    medium := categories.filter fun c => c.priority == "medium"
    low := categories.filter fun c => c.priority == "low" }

def positiveWords : List String :=
  ["great", "excellent", "love", "amazing", "perfect", "smooth", "easy"]

def negativeWords : List String :=
  ["frustrating", "slow", "confusing", "broken", "terrible", "difficult", "complex"]

def calculateJourneySatisfaction (feedback : List FeedbackItem) : String :=
  let positive := (feedback.filter fun f =>
    positiveWords.any fun w => strIncludes (lowerStr f.content) w).length
  let negative := (feedback.filter fun f =>
    negativeWords.any fun w => strIncludes (lowerStr f.content) w).length
  if negative * 2 < positive then "high"
  else if positive * 2 < negative then "low"
  else "medium"

def painPointPatterns : List String :=
  ["slow", "crashing", "confusing", "broken", "missing", "inconsistent",
   "unreliable", "complex", "difficult", "frustrating", "blocking", "error"]

def tallyPainPoints (tally : List (String × Nat)) (f : FeedbackItem) : List (String × Nat) :=
  painPointPatterns.foldl
    (fun t pat => if strIncludes (lowerStr f.content) pat then bumpTally t pat else t) tally

def identifyPainPoints (feedback : List FeedbackItem) : List String :=
  (((feedback.foldl tallyPainPoints []).insertionSort (countDesc Prod.snd)).take 6).map
    fun p => p.1 ++ " (" ++ toString p.2 ++ " mentions)"

def adoptionFeatures : List String :=
  ["prometheus", "snmp", "dashboard", "api", "alerting", "reporting", "docker", "kubernetes"]

def calculateFeatureSentiment (feedback : List FeedbackItem) (feature : String) : String :=
  let featureFeedback := feedback.filter fun f => strIncludes (lowerStr f.content) feature
  let positive := (featureFeedback.filter fun f =>
    strIncludes (lowerStr f.content) "love" || strIncludes (lowerStr f.content) "great" ||
    strIncludes (lowerStr f.content) "excellent" ||
    strIncludes (lowerStr f.content) "perfect").length
  let negative := (featureFeedback.filter fun f =>
    strIncludes (lowerStr f.content) "broken" || strIncludes (lowerStr f.content) "slow" ||
    strIncludes (lowerStr f.content) "confusing" ||
    strIncludes (lowerStr f.content) "missing").length
  if negative < positive then "positive"
  else if positive < negative then "negative"
  else "neutral"

def analyzeFeatureAdoption (feedback : List FeedbackItem) : List FeatureAdoption :=
  ((adoptionFeatures.map fun feature =>
      { feature := feature
        mentions := (feedback.filter fun f => strIncludes (lowerStr f.content) feature).length
        sentiment := calculateFeatureSentiment feedback feature : FeatureAdoption }).filter
    fun fa => 0 < fa.mentions).insertionSort (countDesc FeatureAdoption.mentions)

/-- `FeedbackAggregator.analyzeUserJourneys` (purely rule-based). -/
def analyzeUserJourneys (feedback : List FeedbackItem) : UserJourneyInsights :=
  let setupItems := feedback.filter fun f =>
    strIncludes (lowerStr f.content) "setup" || strIncludes (lowerStr f.content) "install" ||
    strIncludes (lowerStr f.content) "deploy"
  let dailyItems := feedback.filter fun f =>
    strIncludes (lowerStr f.content) "dashboard" ||
    strIncludes (lowerStr f.content) "monitoring" || strIncludes (lowerStr f.content) "daily"
  let troubleItems := feedback.filter fun f =>
    strIncludes (lowerStr f.content) "error" || strIncludes (lowerStr f.content) "issue" ||
    strIncludes (lowerStr f.content) "problem"
  let advancedItems := feedback.filter fun f =>
    strIncludes (lowerStr f.content) "prometheus" ||
    strIncludes (lowerStr f.content) "integration" || strIncludes (lowerStr f.content) "api"
  { journeyStages := [
      { stage := "First Time Setup", feedbackCount := setupItems.length,
        satisfaction := calculateJourneySatisfaction setupItems },
      { stage := "Daily Usage", feedbackCount := dailyItems.length,
        satisfaction := calculateJourneySatisfaction dailyItems },
      { stage := "Troubleshooting", feedbackCount := troubleItems.length,
        satisfaction := calculateJourneySatisfaction troubleItems },
      { stage := "Advanced Features", feedbackCount := advancedItems.length,
        satisfaction := calculateJourneySatisfaction advancedItems } ]
    painPoints := identifyPainPoints feedback
    featureAdoption := analyzeFeatureAdoption feedback }

/-- `FeedbackAggregator.generateDynamicPriorityActions` (purely rule-based;
the `urgentCount` local of the source is never read and is not modelled). -/
def generateDynamicPriorityActions (feedback : List FeedbackItem)
    (priorityMatrix : PriorityMatrix) : List String :=
  let highCount := priorityMatrix.high.length
  let securityIssues := (feedback.filter fun f =>
    strIncludes (lowerStr f.content) "security" ||
    strIncludes (lowerStr f.content) "vulnerability").length
  let actions : List String := []
  let actions := if 0 < securityIssues then actions ++
    ["🚨 CRITICAL: Address SQL injection and security vulnerabilities immediately",
     "🔒 Implement OAuth 2.0 authentication and authorization"] else actions
  let actions := if 2 < highCount then actions ++
    ["⚡ Optimize performance for large network monitoring (>1000 devices)",
     "🧠 Fix memory leaks in SNMP polling processes"] else actions
  let compatibilityIssues := (feedback.filter fun f =>
    strIncludes (lowerStr f.content) "docker" || strIncludes (lowerStr f.content) "arm64" ||
    strIncludes (lowerStr f.content) "ipv6").length
  let actions := if 1 < compatibilityIssues then actions ++
    ["🐳 Add ARM64 Docker container support",
     "🌐 Implement IPv6 support for network discovery"] else actions
  let featureRequests := (feedback.filter fun f =>
    strIncludes (lowerStr f.content) "prometheus" ||
    strIncludes (lowerStr f.content) "integration").length
  let actions := if 1 < featureRequests then actions ++
    ["📊 Add native Prometheus metrics export",
     "🔗 Develop ServiceNow bidirectional integration"] else actions
  let actions := if actions.length < 3 then actions ++
    ["📈 Enhance dashboard usability and navigation",
     "📱 Develop mobile application for network monitoring",
     "🔧 Implement NetFlow v9 export capabilities"] else actions
  actions.take 6

/-! ### Cache keys and the cache effect of the write path

For claim C1 the KV cache is a key/value map `String → Option String`.
-/

/-- The cache key `getSummary` reads and writes. -/
def getSummaryCacheKey : String := "feedback:summary"

/-- The cache key `getInsights` reads and writes (note the `v2` suffix the
source added "to force refresh"). -/
def getInsightsCacheKey : String := "feedback:insights:v2"

/-- The cache key `generateVisualization` reads and writes. -/
def generateVisualizationCacheKey : String := "network:visualization:v2"

/-- `env.CACHE.delete(key)`. -/
def cacheDelete (cache : String → Option String) (key : String) : String → Option String :=
  fun k => if k = key then none else cache k

/-- The cache-invalidation effect at the end of
`FeedbackAggregator.processFeedbackDirectly`: it deletes exactly the keys
`feedback:summary` and `feedback:insights`. -/
def processFeedbackDirectlyCache (cache : String → Option String) : String → Option String :=
  cacheDelete (cacheDelete cache "feedback:summary") "feedback:insights"

/-- The D1 effect of `processFeedbackDirectly`: `INSERT OR REPLACE` by `id`,
in batch order (row order is irrelevant: reads sort by `created_at`). -/
def upsertRow (table : List FeedbackItem) (item : FeedbackItem) : List FeedbackItem :=
  if table.any fun r => r.id == item.id then
    table.map fun r => if r.id == item.id then item else r
  else table ++ [item]

def processFeedbackDirectlyDB (table : List FeedbackItem) (batch : List FeedbackItem) :
    List FeedbackItem :=
  batch.foldl upsertRow table

/-! ### Environment and state for the effectful pipeline -/

/-- State threaded through one aggregator request: the `ai:tokens:used`
entry of the singleton `FreeTierManager`, and the number of AI calls already
attempted (used to index the environment's AI behaviour). -/
structure RunState where
  quota : Option UsageEntry
  aiCalls : Nat
  deriving Repr, DecidableEq

/-- One possible behaviour of the external collaborators during a request.
`cache*` model `env.CACHE.get` on the three read keys (`.error` = the KV
gateway throws; payload deserialisation is the identity on typed payloads);
`cachePutOk k` tells whether `env.CACHE.put(k, ..)` succeeds; `dbQuery` and
`dbNetworkQuery` model the two D1 SELECTs; `aiRun i prompt` is the response
(or failure) of the `i`-th `env.AI.run` call; `parseSentiment` models
`JSON.parse` on the free-form sentiment response. -/
structure EnvM where
  dayStart : Nat
  cacheSummary : Except Unit (Option FeedbackSummary)
  cacheInsights : Except Unit (Option FeedbackInsights)
  cacheViz : Except Unit (Option NetworkVisualization)
  cachePutOk : String → Bool
  dbQuery : Except Unit (List FeedbackItem)
  dbNetworkQuery : Except Unit (List FeedbackItem)
  aiRun : Nat → String → Except Unit String
  parseSentiment : String → Except Unit SentimentAnalysis
  nowIso : String
  nowLocale : String

/-! ### The seed ("mock") dataset of `aggregateAllFeedback`

ISO timestamps are encoded as the numeral `yyyymmddhhmmss`, which preserves
their chronological order; apostrophes in the original text are written with
the `\x27` escape.
-/

def noMeta : Metadata := { labels := none, priority := none, state := none }

def labelsMeta (ls : List String) : Metadata :=
  { labels := some ls, priority := none, state := none }

def priorityMeta (p : String) : Metadata :=
  { labels := none, priority := some p, state := none }

def mockFeedback : List FeedbackItem :=
  [ { id := "github_001", source_type := "github", source_id := "issues/456"
      title := "Docker container fails to start on ARM64 architecture"
      content := "When trying to run PlexNet in a Docker container on ARM64 systems, the container fails to start with exec format error. This is blocking deployment on modern Apple Silicon Macs and ARM-based servers."
      author := "dev-arm64-user", created_at := 20241125132000
      metadata := labelsMeta ["bug", "docker", "arm64", "critical"] },
    { id := "github_002", source_type := "github", source_id := "issues/457"
      title := "Feature request: Prometheus metrics export"
      content := "Add native Prometheus metrics export capability for integration with existing monitoring stacks. Need /metrics endpoint with proper exposition format and configurable collection intervals."
      author := "k8s-monitoring", created_at := 20241126164500
      metadata := labelsMeta ["enhancement", "prometheus", "kubernetes"] },
    { id := "github_003", source_type := "github", source_id := "issues/458"
      title := "High CPU usage when monitoring large networks (>1000 devices)"
      content := "Server process consumes excessive CPU resources when monitoring networks with more than 1000 devices. Performance degrades significantly with SNMP polling becoming slow and unreliable."
      author := "enterprise-user", created_at := 20241127111000
      metadata := labelsMeta ["performance", "scalability", "snmp"] },
    { id := "github_004", source_type := "github", source_id := "pull/234"
      title := "Add IPv6 support for network discovery"
      content := "Implement comprehensive IPv6 support including ICMPv6 neighbor discovery, IPv6 subnet scanning, and dual-stack device detection. Closes IPv6 compatibility issues."
      author := "ipv6-contributor", created_at := 20241128153000
      metadata := labelsMeta ["enhancement", "ipv6", "network-discovery"] },
    { id := "github_005", source_type := "github", source_id := "issues/459"
      title := "Security vulnerability: SQL injection in device search API"
      content := "Critical SQL injection vulnerability in /api/devices/search endpoint. Query parameters are not properly sanitized before SQL execution. Affects all versions prior to 2.3.2."
      author := "security-researcher", created_at := 20241129080000
      metadata := labelsMeta ["security", "vulnerability", "sql-injection", "critical"] },
    { id := "slack_001", source_type := "slack", source_id := "C1234567890_1643723400.001"
      title := "Customer reporting dashboard login issues"
      content := "@support-team We just got a call from a customer at MegaCorp reporting \x27Invalid token\x27 errors when logging into the dashboard after the latest update. They\x27re using SSO with Azure AD."
      author := "customer-success", created_at := 20241201093000
      metadata := noMeta },
    { id := "slack_002", source_type := "slack", source_id := "C2345678901_1643724000.001"
      title := "New feature idea: Network topology visualization"
      content := "@product-team What if we added an interactive network topology map showing devices, connections, and traffic flows in real-time? Could help with troubleshooting connectivity issues."
      author := "network-engineer", created_at := 20241201104500
      metadata := noMeta },
    { id := "slack_003", source_type := "slack", source_id := "C3456789012_1643725000.001"
      title := "Performance issue with large network scans"
      content := "@engineering-team Network scans are taking 15+ minutes for networks with 500+ devices. Customers are complaining about slow discovery times. Need optimization for large-scale deployments."
      author := "field-engineer", created_at := 20241201113000
      metadata := noMeta },
    { id := "jira_001", source_type := "jira", source_id := "NET-123"
      title := "Network monitoring performance degradation"
      content := "Users reporting slow response times when accessing network monitoring dashboard during peak hours. Memory usage spikes to 2-3GB during high load periods."
      author := "network-team", created_at := 20241128101500
      metadata := priorityMeta "high" },
    { id := "jira_002", source_type := "jira", source_id := "SEC-456"
      title := "Implement OAuth 2.0 authentication"
      content := "Replace basic authentication with OAuth 2.0 for improved security and integration capabilities with enterprise identity providers like Okta and Azure AD."
      author := "security-team", created_at := 20241130142000
      metadata := priorityMeta "medium" },
    { id := "email_001", source_type := "email", source_id := "ticket_789"
      title := "Cannot access historical data after upgrade"
      content := "After upgrading to v2.3.0, users cannot access historical monitoring data from before the upgrade. Database migration issue suspected. Critical for compliance reporting."
      author := "support@enterprise-customer.com", created_at := 20241202084500
      metadata := priorityMeta "high" },
    { id := "bug_001", source_type := "bug-report", source_id := "BR-101"
      title := "Memory leak in SNMP polling process"
      content := "Memory usage continuously increases during SNMP polling operations. Process must be restarted every 24 hours to prevent system crashes. Affects reliability in production."
      author := "qa-team", created_at := 20241203131500
      metadata := noMeta },
    { id := "teams_001", source_type := "teams", source_id := "thread_abc123"
      title := "Integration with ServiceNow requested"
      content := "Customer is asking for bidirectional integration with ServiceNow for automated incident creation and resolution tracking. This would streamline IT operations workflows."
      author := "sales-engineer", created_at := 20241204090000
      metadata := noMeta },
    { id := "form_001", source_type := "dashboard-form", source_id := "feedback_001"
      title := "Dashboard usability feedback"
      content := "The new dashboard layout is confusing. Users can\x27t find the device list easily. Navigation needs improvement. The search functionality is also slow with large device counts."
      author := "power-user", created_at := 20241205163000
      metadata := noMeta },
    { id := "github_006", source_type := "github", source_id := "issues/460"
      title := "Add support for NetFlow v9 export"
      content := "Implement NetFlow v9 export capability for integration with network traffic analysis tools like SolarWinds and PRTG. This is a common enterprise requirement."
      author := "netflow-user", created_at := 20241206100000
      metadata := labelsMeta ["enhancement", "netflow", "export"] },
    { id := "slack_004", source_type := "slack", source_id := "C4567890123_1643726000.001"
      title := "Mobile app feature request"
      content := "@product-team Can we get a mobile app for on-the-go network monitoring? Critical alerts and basic device status would be very useful for network admins."
      author := "mobile-user", created_at := 20241206141500
      metadata := noMeta } ]

/-- `FeedbackAggregator.aggregateAllFeedback`: D1 rows when any exist
(`getFeedbackFromDB` swallows D1 failures and yields `[]`), otherwise the
seed dataset. The best-effort write-back of the seed data (whose own D1 and
cache failures are caught and logged) affects only the external stores, not
the returned list, and its store effect is modelled separately by
`processFeedbackDirectlyDB` / `processFeedbackDirectlyCache`. -/
def aggregateAllFeedbackE (env : EnvM) : List FeedbackItem :=
  let dbFeedback := match env.dbQuery with
    | .ok rows => rows
    | .error _ => []
  match dbFeedback with
  | [] => mockFeedback
  | r :: rs => r :: rs

/-! ### AI enrichment stages (each with its deterministic fallback) -/

/-- `FeedbackAggregator.analyzeSentiment` (summary path). -/
def analyzeSentimentE (dayStart : Nat) (aiRun : Nat → String → Except Unit String)
    (st : RunState) (feedback : List FeedbackItem) : String × RunState :=
  let sample := feedback.take 5
  let titles := String.intercalate ". " (sample.map fun f => f.title)
  let truncatedTitles := truncateForAI titles 1000
  let estimatedTokens := estimateTokens truncatedTitles
  let p := canMakeAIRequest st.quota dayStart estimatedTokens
  if p.1 then
    match aiRun st.aiCalls ("Analyze sentiment: " ++ truncatedTitles) with
    | .error _ => ("Neutral", ⟨p.2, st.aiCalls + 1⟩)
    | .ok resp =>
      let q := recordAITokensUsed p.2 dayStart estimatedTokens
      (if strIncludes (lowerStr resp) "positive" then "Positive"
       else if strIncludes (lowerStr resp) "negative" then "Negative"
       else "Neutral", ⟨q, st.aiCalls + 1⟩)
  else ("Neutral", ⟨p.2, st.aiCalls⟩)

/-- The object returned by `analyzeSentimentTrends` when the quota check
denies the request. -/
def sentimentDeniedDefault : SentimentAnalysis :=
  { overall := some "neutral", key_concerns := none, positive_signals := none
    urgency_level := none, trends := some [] }

/-- The object returned by `analyzeSentimentTrends` when the AI call or the
JSON parse fails. -/
def sentimentCatchDefault : SentimentAnalysis :=
  { overall := some "neutral", key_concerns := some [], positive_signals := some []
    urgency_level := some "medium", trends := none }

/-- `FeedbackAggregator.analyzeSentimentTrends`. -/
def analyzeSentimentTrendsE (dayStart : Nat) (aiRun : Nat → String → Except Unit String)
    (parseSent : String → Except Unit SentimentAnalysis) (st : RunState)
    (feedback : List FeedbackItem) : SentimentAnalysis × RunState :=
  let p := canMakeAIRequest st.quota dayStart 2000
  if p.1 then
    let recentFeedback := feedback.drop (feedback.length - 12)
    let contentSample := String.intercalate "; "
      (recentFeedback.map fun f => f.source_type ++ ": " ++ f.title)
    match aiRun st.aiCalls ("Analyze sentiment in: " ++ contentSample) with
    | .error _ => (sentimentCatchDefault, ⟨p.2, st.aiCalls + 1⟩)
    | .ok resp =>
      let q := recordAITokensUsed p.2 dayStart 2000
      match parseSent resp with
      | .ok sa => (sa, ⟨q, st.aiCalls + 1⟩)
      | .error _ => (sentimentCatchDefault, ⟨q, st.aiCalls + 1⟩)
  else (sentimentDeniedDefault, ⟨p.2, st.aiCalls⟩)

/-- The bullet-line filter applied to AI responses:
`split('\n')`, keep trimmed lines starting with a bullet or dash, `slice(0, n)`. -/
def parseBulletLines (resp : String) (n : Nat) : List String :=
  ((resp.splitOn "\n").filter fun line =>
    line.trim.startsWith "•" || line.trim.startsWith "-").take n

/-- The fixed trending-topics fallback list. -/
def trendingFallback : List String :=
  ["Performance & Scalability Issues", "Security Vulnerabilities",
   "Multi-Platform Compatibility", "Integration Capabilities",
   "User Experience Improvements"]

/-- `FeedbackAggregator.extractAdvancedTrendingTopics`. -/
def extractAdvancedTrendingTopicsE (dayStart : Nat)
    (aiRun : Nat → String → Except Unit String) (st : RunState)
    (feedback : List FeedbackItem) : List String × RunState :=
  let recentFeedback := feedback.drop (feedback.length - 15)
  let content := String.intercalate " | " (recentFeedback.map fun f =>
    f.source_type ++ ": " ++ f.title ++ " - " ++ strTake f.content 100)
  let truncatedContent := truncateForAI content 1200
  let estimatedTokens := estimateTokens truncatedContent
  let p := canMakeAIRequest st.quota dayStart estimatedTokens
  if p.1 then
    match aiRun st.aiCalls
        ("Extract trending topics from this feedback data: " ++ truncatedContent) with
    | .error _ => (trendingFallback, ⟨p.2, st.aiCalls + 1⟩)
    | .ok resp =>
      let q := recordAITokensUsed p.2 dayStart estimatedTokens
      let topics := parseBulletLines resp 5
      (if topics.isEmpty then trendingFallback else topics, ⟨q, st.aiCalls + 1⟩)
  else (trendingFallback, ⟨p.2, st.aiCalls⟩)

/-- The fixed recommendations fallback list. -/
def recommendationsFallback : List String :=
  ["Address critical security vulnerabilities immediately",
   "Implement performance optimizations for large-scale deployments",
   "Add comprehensive multi-platform support (ARM64, IPv6)",
   "Enhance user experience with improved dashboard usability",
   "Develop native integrations with popular monitoring platforms"]

/-- `FeedbackAggregator.generateAdvancedRecommendations`. -/
def generateAdvancedRecommendationsE (dayStart : Nat)
    (aiRun : Nat → String → Except Unit String) (st : RunState)
    (feedback : List FeedbackItem) (sentimentAnalysis : SentimentAnalysis) :
    List String × RunState :=
  let feedbackSummary := String.intercalate "; " ((feedback.take 10).map fun f =>
    f.source_type ++ ": " ++ f.title ++ " (" ++ f.metadata.priority.getD "medium" ++ ")")
  let context := "Sentiment: " ++ sentimentAnalysis.overall.getD "neutral" ++
    ", Urgency: " ++ sentimentAnalysis.urgency_level.getD "medium"
  let combinedInput := context ++ ". Feedback: " ++ feedbackSummary
  let truncatedInput := truncateForAI combinedInput 800
  let estimatedTokens := estimateTokens truncatedInput
  let p := canMakeAIRequest st.quota dayStart estimatedTokens
  if p.1 then
    match aiRun st.aiCalls ("Generate strategic recommendations from: " ++ truncatedInput) with
    | .error _ => (recommendationsFallback, ⟨p.2, st.aiCalls + 1⟩)
    | .ok resp =>
      let q := recordAITokensUsed p.2 dayStart estimatedTokens
      let recommendations := parseBulletLines resp 5
      (if 3 ≤ recommendations.length then recommendations else recommendationsFallback,
       ⟨q, st.aiCalls + 1⟩)
  else (recommendationsFallback, ⟨p.2, st.aiCalls⟩)

/-! ### The aggregator operations -/

/-- `FeedbackAggregator.analyzeFeedbackSummary`. -/
def analyzeFeedbackSummaryE (env : EnvM) (st : RunState) (feedback : List FeedbackItem) :
    FeedbackSummary × RunState :=
  let sources := feedback.foldl
    (fun acc f => if acc.contains f.source_type then acc else acc ++ [f.source_type]) []
  let dates := (feedback.map fun f => f.created_at).insertionSort natAsc
  let dateRange := match dates with
    | [] => "No data"
    | d :: rest => toString d ++ " to " ++ toString (rest.getLastD d)
  let categories := categorizeFeedback feedback
  let p := analyzeSentimentE env.dayStart env.aiRun st feedback
  let criticalIssues := (feedback.filter fun f =>
    (itemLabels f).contains "security" || (itemLabels f).contains "critical" ||
    strIncludes (lowerStr f.content) "vulnerability" ||
    strIncludes (lowerStr f.content) "crash").length
  let featureRequests := (feedback.filter fun f =>
    (f.source_type == "github" && f.metadata.state == some "open" &&
      (itemLabels f).contains "enhancement") ||
    strIncludes (lowerStr f.content) "feature request" ||
    strIncludes (lowerStr f.content) "would be great").length
  ({ totalItems := feedback.length
     sources := sources
     dateRange := dateRange
     topCategories := (categories.take 5).map fun c => c.1 ++ " (" ++ toString c.2 ++ ")"
     averageSentiment := p.1
     criticalIssues := criticalIssues
     featureRequests := featureRequests }, p.2)

/-- `FeedbackAggregator.getSummary`. The two `env.CACHE` point operations
are not wrapped in any try/catch in the source, so their failures surface as
`.error`; everything in between is total. -/
def getSummaryE (env : EnvM) (st : RunState) : Except Unit (FeedbackSummary × RunState) :=
  match env.cacheSummary with
  | .error e => .error e
  | .ok (some cached) => .ok (cached, st)
  | .ok none =>
    let allFeedback := aggregateAllFeedbackE env
    let p := analyzeFeedbackSummaryE env st allFeedback
    if env.cachePutOk getSummaryCacheKey then .ok p else .error ()

/-- `FeedbackAggregator.generateInsights`: the per-stage try/catch blocks of
the source are vacuous here because every stage is total (each catches its
own gateway failures internally). -/
def generateInsightsE (dayStart : Nat) (aiRun : Nat → String → Except Unit String)
    (parseSent : String → Except Unit SentimentAnalysis) (st : RunState)
    (feedback : List FeedbackItem) : FeedbackInsights × RunState :=
  let criticalIssues := extractCriticalIssues feedback
  let r1 := analyzeSentimentTrendsE dayStart aiRun parseSent st feedback
  let priorityMatrix := generatePriorityMatrix feedback
  let userJourneyInsights := analyzeUserJourneys feedback
  let r2 := extractAdvancedTrendingTopicsE dayStart aiRun r1.2 feedback
  let r3 := generateAdvancedRecommendationsE dayStart aiRun r2.2 feedback r1.1
  let priorityActions := generateDynamicPriorityActions feedback priorityMatrix
  ({ criticalIssues := criticalIssues
     trendingTopics := r2.1
     recommendations := r3.1
     priorityActions := priorityActions
     sentimentAnalysis := r1.1
     priorityMatrix := priorityMatrix
     userJourneyInsights := userJourneyInsights }, r3.2)

/-- `FeedbackAggregator.getInsights` (cache key `feedback:insights:v2`). -/
def getInsightsE (env : EnvM) (st : RunState) : Except Unit (FeedbackInsights × RunState) :=
  match env.cacheInsights with
  | .error e => .error e
  | .ok (some cached) => .ok (cached, st)
  | .ok none =>
    let allFeedback := aggregateAllFeedbackE env
    let p := generateInsightsE env.dayStart env.aiRun env.parseSentiment st allFeedback
    if env.cachePutOk getInsightsCacheKey then .ok p else .error ()

/-! ### The visualizer operations -/

def statusIcon : LayerStatus → String
  | .healthy => "🟢"
  | .warning => "🟡"
  | .critical => "🔴"

/-- One line of the layer-by-layer breakdown, with the connector for every
layer but the last. -/
def layerLine (total : Nat) (p : Nat × NetworkLayer) : String :=
  statusIcon p.2.status ++ " " ++ p.2.name ++
    (if 0 < p.2.issueCount then " (" ++ toString p.2.issueCount ++ " issues)"
     else " (healthy)") ++ "\n" ++
    (if p.1 + 1 < total then "   │\n" else "")

/-- `NetworkVisualizer.generateComprehensiveVisualization`. -/
def generateComprehensiveVisualization (nowLocale : String)
    (layers : List NetworkLayer) : String :=
  let healthScore := calculateHealthScore layers
  let overallStatus := if 80 ≤ healthScore then "🟢 EXCELLENT"
    else if 60 ≤ healthScore then "🟡 GOOD"
    else if 40 ≤ healthScore then "🟠 FAIR" else "🔴 POOR"
  let criticalCount := (layers.filter fun l => l.status == .critical).length
  let warningCount := (layers.filter fun l => l.status == .warning).length
  let healthyCount := (layers.filter fun l => l.status == .healthy).length
  "🏗️ *Network Stack Health Visualization*\n" ++
  "═══════════════════════════════════════\n\n" ++
  "📊 *Overall Health:* " ++ overallStatus ++ " (" ++ toString healthScore ++ "/100)\n\n" ++
  "🔍 *Layer Analysis:*\n" ++
  String.join ((layers.enum).map (layerLine layers.length)) ++
  "\n📈 *Issue Summary:*\n" ++
  "🔴 Critical: " ++ toString criticalCount ++ " layers\n" ++
  "🟡 Warning: " ++ toString warningCount ++ " layers\n" ++
  "🟢 Healthy: " ++ toString healthyCount ++ " layers\n\n" ++
  "💡 *Recommendations:*\n" ++
  (if 80 ≤ healthScore then
    "✅ Network stack is in excellent condition\n🔄 Continue monitoring and maintenance\n"
   else if 60 ≤ healthScore then
    "⚠️ Address warning-level issues\n📈 Consider performance optimizations\n"
   else
    "🚨 Immediate attention required\n🔧 Focus on critical infrastructure issues\n") ++
  "\n⏰ *Last updated:* " ++ nowLocale ++ "\n"

/-- `NetworkVisualizer.createVisualizationData`. -/
def createVisualizationData (nowIso nowLocale : String) (layers : List NetworkLayer) :
    NetworkVisualization :=
  let criticalLayers := (layers.filter fun l => l.status == .critical).map fun l =>
    "🚨 " ++ l.name ++ ": " ++ toString l.issueCount ++ " issues"
  let warningLayers := (layers.filter fun l => l.status == .warning).map fun l =>
    "⚠️ " ++ l.name ++ ": " ++ toString l.issueCount ++ " issues"
  { layerStatus := layers
    criticalLayers := if criticalLayers.isEmpty then ["✅ No critical issues detected"]
      else criticalLayers
    warningLayers := if warningLayers.isEmpty then ["✅ No warnings detected"]
      else warningLayers
    issueDistribution := String.intercalate ", "
      (layers.map fun l => l.name ++ ": " ++ toString l.issueCount)
    visualization := generateComprehensiveVisualization nowLocale layers
    lastUpdated := nowIso
    healthScore := calculateHealthScore layers }

/-- `NetworkVisualizer.getNetworkFeedback`: the D1 query (whose LIKE filter
the gateway applies) or, when D1 throws, the keyword filter over the
aggregated feedback. Note the label check of the fallback does not lowercase
the label. -/
def getNetworkFeedbackE (env : EnvM) : List FeedbackItem :=
  match env.dbNetworkQuery with
  | .ok rows => rows
  | .error _ =>
    (aggregateAllFeedbackE env).filter fun f =>
      strIncludes (lowerStr f.content) "network" ||
      strIncludes (lowerStr f.content) "connectivity" ||
      strIncludes (lowerStr f.content) "interface" ||
      (itemLabels f).any fun label => strIncludes label "network"

/-- `NetworkVisualizer.generateVisualization` (cache key
`network:visualization:v2`; the cache `get`/`put` are not guarded by any
try/catch). -/
def generateVisualizationE (env : EnvM) : Except Unit NetworkVisualization :=
  match env.cacheViz with
  | .error e => .error e
  | .ok (some cached) => .ok cached
  | .ok none =>
    let feedback := getNetworkFeedbackE env
    let layers := analyzeNetworkLayers feedback
    let visualization := createVisualizationData env.nowIso env.nowLocale layers
    if env.cachePutOk generateVisualizationCacheKey then .ok visualization else .error ()

/-! ### Spec-side formulas used to state the claims -/

/-- Total issue count over a layer set (the claim's `totalIssues`). -/
def totalIssuesOf (layers : List NetworkLayer) : Nat :=
  layers.foldl (fun sum layer => sum + layer.issueCount) 0

/-- Number of layers whose status is critical (the claim's
`criticalLayerCount`). -/
def criticalLayerCount (layers : List NetworkLayer) : Nat :=
  (layers.filter fun l => l.status == .critical).length

/-- Number of layers whose status is warning (the claim's
`warningLayerCount`). -/
def warningLayerCount (layers : List NetworkLayer) : Nat :=
  (layers.filter fun l => l.status == .warning).length

/-- The amended severity rule set for claim C4: exactly the additive rules of
spec section 4.3, with the +1 band triggered by priority `high` or a `high`
label (the source checks both), written as one clamped sum. -/
def severityAmendedSpec (f : FeedbackItem) : Nat :=
  min
    (1 +
      (if (itemLabels f).contains "critical" ||
          strIncludes (lowerStr (f.content ++ f.title)) "security" ||
          strIncludes (lowerStr (f.content ++ f.title)) "vulnerability" then 3 else 0) +
      (if strIncludes (lowerStr (f.content ++ f.title)) "crash" ||
          strIncludes (lowerStr (f.content ++ f.title)) "data loss" then 2 else 0) +
      (if (itemLabels f).contains "blocking" ||
          strIncludes (lowerStr (f.content ++ f.title)) "blocking" then 2 else 0) +
      (if f.metadata.priority == some "high" || (itemLabels f).contains "high" then 1 else 0) +
      (if f.source_type == "bug-report" then 1 else 0) +
      (if f.source_type == "security-researcher" then 2 else 0))
    5

/-! ### Concrete inputs used by witnesses and counterexamples -/

/-- A record with a `critical` label and content mentioning "security" that
matches no other scoring rule (claim C8's scenario). -/
def recCriticalSecurity : FeedbackItem :=
  { id := "r-cs", source_type := "github", source_id := "s", title := "t"
    content := "security", author := "a", created_at := 1
    metadata := labelsMeta ["critical"] }

/-- A record whose only scoring trigger is a `high` label (priority unset):
the source adds 1 for it, the literal spec rule set does not. -/
def recHighLabel : FeedbackItem :=
  { id := "r-hl", source_type := "github", source_id := "s", title := "t"
    content := "nothing to see", author := "a", created_at := 1
    metadata := labelsMeta ["high"] }

/-- A record matching the critical-keyword filter, for the C6 witness. -/
def recCriticalIssue : FeedbackItem :=
  { id := "r-ci", source_type := "jira", source_id := "s", title := "Broken update"
    content := "this update made the server crash", author := "a", created_at := 2
    metadata := noMeta }

/-- One of six distinct records whose content contains "tcp" (claim C7). -/
def tcpRecord (i : Nat) : FeedbackItem :=
  { id := "tcp_" ++ toString i, source_type := "github", source_id := "s"
    title := "t", content := "tcp trouble on the network", author := "a", created_at := i
    metadata := noMeta }

def sixTcpRecords : List FeedbackItem :=
  [tcpRecord 0, tcpRecord 1, tcpRecord 2, tcpRecord 3, tcpRecord 4, tcpRecord 5]

/-- An environment whose KV cache gateway throws on every `get` (claim C3's
counterexample). -/
def envCacheDown : EnvM :=
  { dayStart := 0
    cacheSummary := .error ()
    cacheInsights := .error ()
    cacheViz := .error ()
    cachePutOk := fun _ => false
    dbQuery := .ok []
    dbNetworkQuery := .ok []
    aiRun := fun _ _ => .error ()
    parseSentiment := fun _ => .error ()
    nowIso := ""
    nowLocale := "" }

/-- An environment whose cache works (misses on `get`, `put` succeeds) while
the database and AI gateways always fail (claim C3's witness). -/
def envCacheOkRestDown : EnvM :=
  { dayStart := 0
    cacheSummary := .ok none
    cacheInsights := .ok none
    cacheViz := .ok none
    cachePutOk := fun _ => true
    dbQuery := .error ()
    dbNetworkQuery := .error ()
    aiRun := fun _ _ => .error ()
    parseSentiment := fun _ => .error ()
    nowIso := ""
    nowLocale := "" }

/-- A cache state holding a stale insights payload under the key that
`getInsights` reads (claim C1's failing input). -/
def staleInsightsCache : String → Option String :=
  fun k => if k = getInsightsCacheKey then some "stale-insights" else none

def staleSummaryCache : String → Option String :=
  fun k => if k = getSummaryCacheKey then some "stale-summary" else none

/-! ## Theorems -/

/-- Claim C2: `canMakeAIRequest` first applies the day rollover (resetting a
stale counter to 0) and then returns true iff `used + estimatedTokens <
hardLimit - reservedMargin`; with the source's constants (hard limit 100000,
reserve 10000) a counter at 95000 denies a 3000-token request. -/
theorem canMakeAIRequest_spec :
    (∀ (st : Option UsageEntry) (dayStart n : Nat),
      (canMakeAIRequest st dayStart n).1 = true ↔
        quotaCount (rolloverQuota st dayStart) + n <
          CLOUDFLARE_LIMITS.AI_TOKENS_PER_DAY - CLOUDFLARE_LIMITS.AI_RESERVED_TOKENS) ∧
    CLOUDFLARE_LIMITS.AI_TOKENS_PER_DAY = 100000 ∧
    CLOUDFLARE_LIMITS.AI_RESERVED_TOKENS = 10000 ∧
    (canMakeAIRequest (some ⟨95000, 0⟩) 0 3000).1 = false := by
  refine ⟨?_, rfl, rfl, by decide⟩
  intro st dayStart n
  simp [canMakeAIRequest]

/-- Claim C10: the quota check never consumes — `canMakeAIRequest` leaves the
recorded count unchanged when the stored window matches the current day and
resets it to exactly 0 otherwise, so it never increases it; only
`recordAITokensUsed` adds to the count, and within one window the count is
monotonically non-decreasing. -/
theorem quota_check_never_consumes :
    (∀ (st : Option UsageEntry) (dayStart n : Nat),
      quotaResetTime st = some dayStart → (canMakeAIRequest st dayStart n).2 = st) ∧
    (∀ (st : Option UsageEntry) (dayStart n : Nat),
      quotaResetTime st ≠ some dayStart →
        (canMakeAIRequest st dayStart n).2 = some ⟨0, dayStart⟩) ∧
    (∀ (st : Option UsageEntry) (dayStart n : Nat),
      quotaCount (canMakeAIRequest st dayStart n).2 ≤ quotaCount st) ∧
    (∀ (e : UsageEntry) (dayStart t : Nat), e.resetTime = dayStart →
      recordAITokensUsed (some e) dayStart t = some ⟨e.count + t, dayStart⟩) ∧
    (∀ (e : UsageEntry) (dayStart t : Nat), e.resetTime = dayStart →
      quotaCount (some e) ≤ quotaCount (recordAITokensUsed (some e) dayStart t)) := by
  refine ⟨?_, ?_, ?_, ?_, ?_⟩
  · intro st dayStart n h
    simp [canMakeAIRequest, rolloverQuota, h]
  · intro st dayStart n h
    simp [canMakeAIRequest, rolloverQuota, h]
  · intro st dayStart n
    simp only [canMakeAIRequest, rolloverQuota]
    split
    · exact Nat.le_refl _
    · exact Nat.zero_le _
  · intro e dayStart t h
    simp [recordAITokensUsed, h]
  · intro e dayStart t h
    simp [recordAITokensUsed, h, quotaCount]

theorem quota_check_never_consumes_witness :
    (canMakeAIRequest (some ⟨41, 7⟩) 7 100).2 = some ⟨41, 7⟩ ∧
    (canMakeAIRequest (some ⟨41, 3⟩) 7 100).2 = some ⟨0, 7⟩ ∧
    recordAITokensUsed (some ⟨41, 7⟩) 7 9 = some ⟨50, 7⟩ :=
  ⟨quota_check_never_consumes.1 (some ⟨41, 7⟩) 7 100 (by decide),
   quota_check_never_consumes.2.1 (some ⟨41, 3⟩) 7 100 (by decide),
   by simpa using quota_check_never_consumes.2.2.2.1 ⟨41, 7⟩ 7 9 rfl⟩

/-- Claim C8: a record with labels `["critical"]` and content containing
"security" that matches no other scoring rule gets severity exactly 4: the
+3 band is applied once although two of its conditions hold. -/
theorem severity_critical_security_is_four :
    calculateSeverity recCriticalSecurity = 4 := by decide

/-- Claim C4 counterexample: the source applies an addition outside the
literal section 4.3 rule list — a record whose only trigger is a `high`
label (priority unset) gets severity 2 from the code, while the literal
rules ("add 1 if priority is high") give 1. -/
theorem severity_beyond_spec_rules :
    calculateSeverity recHighLabel = 2 ∧ severitySpec recHighLabel = 1 := by
  exact ⟨by decide, by decide⟩

/-- Claim C4 (amended): severity is always an integer in `[1, 5]`, and
`calculateSeverity` is exactly the clamped sum of the section 4.3 additive
bands with the +1 band triggered by priority `high` or a `high` label. -/
theorem calculateSeverity_bounds :
    ∀ f : FeedbackItem,
      1 ≤ calculateSeverity f ∧ calculateSeverity f ≤ 5 ∧
      calculateSeverity f = severityAmendedSpec f := by
  intro f
  refine ⟨?_, ?_, rfl⟩
  · simp only [calculateSeverity]
    exact le_min (by omega) (by omega)
  · simp only [calculateSeverity]
    exact min_le_right _ _

/-- Claim C5: the overall health score is the clamp of
`100 - 5*totalIssues - 15*criticalLayerCount - 5*warningLayerCount` to
`[0, 100]`, hence always within those bounds, and an empty record batch
(seven all-zero healthy layers) scores exactly 100. -/
theorem calculateHealthScore_spec :
    (∀ layers : List NetworkLayer,
      calculateHealthScore layers =
        clampSpec (100 - 5 * (totalIssuesOf layers : Int) -
          15 * (criticalLayerCount layers : Int) - 5 * (warningLayerCount layers : Int))
          0 100 ∧
      0 ≤ calculateHealthScore layers ∧ calculateHealthScore layers ≤ 100) ∧
    calculateHealthScore (analyzeNetworkLayers []) = 100 := by
  refine ⟨?_, by decide⟩
  intro layers
  refine ⟨?_, ?_, ?_⟩
  · simp only [calculateHealthScore, clampSpec, totalIssuesOf, criticalLayerCount,
      warningLayerCount]
    omega
  · simp only [calculateHealthScore]
    exact le_max_left 0 _
  · simp only [calculateHealthScore]
    exact max_le (by norm_num) (min_le_left _ _)

/-- Claim C1 (code bug): after `processFeedbackDirectly` the summary cache
entry is deleted, but the entry under the key `getInsights` actually reads
(`feedback:insights:v2`) survives for every starting cache state — the code
deletes the outdated key `feedback:insights` — so a stale insights payload
is still served. -/
theorem upsert_misses_insights_cache_key :
    (∀ cache : String → Option String,
      processFeedbackDirectlyCache cache getSummaryCacheKey = none ∧
      processFeedbackDirectlyCache cache getInsightsCacheKey = cache getInsightsCacheKey) ∧
    processFeedbackDirectlyCache staleInsightsCache getInsightsCacheKey =
      some "stale-insights" ∧
    processFeedbackDirectlyCache staleSummaryCache getSummaryCacheKey = none := by
  refine ⟨?_, by decide, by decide⟩
  intro cache
  constructor
  · simp [processFeedbackDirectlyCache, cacheDelete, getSummaryCacheKey]
  · simp [processFeedbackDirectlyCache, cacheDelete, getInsightsCacheKey]

/-- Claim C6: the critical-issue list only contains renderings
`"{title} ({sourceType})"` of input records matching the fixed
critical-keyword set, has at most 8 elements, and the underlying truncated
record list is sorted by severity descending, then `created_at`
descending. -/
theorem extractCriticalIssues_spec :
    ∀ feedback : List FeedbackItem,
      (extractCriticalIssues feedback).length ≤ 8 ∧
      List.Sorted critBefore (criticalSorted feedback) ∧
      ∀ s, s ∈ extractCriticalIssues feedback →
        ∃ f, f ∈ feedback ∧ isCriticalRecord f = true ∧ s = renderCritical f := by
  intro feedback
  refine ⟨?_, ?_, ?_⟩
  · simp only [extractCriticalIssues, criticalSorted, List.length_map, List.length_take]
    omega
  · exact List.Pairwise.sublist (List.take_sublist 8 _)
      (List.sorted_insertionSort critBefore (feedback.filter isCriticalRecord))
  · intro s hs
    simp only [extractCriticalIssues, List.mem_map] at hs
    obtain ⟨f, hf, rfl⟩ := hs
    have hf2 : f ∈ (feedback.filter isCriticalRecord).insertionSort critBefore :=
      List.mem_of_mem_take hf
    have hf3 : f ∈ feedback.filter isCriticalRecord :=
      (List.perm_insertionSort critBefore _).mem_iff.mp hf2
    obtain ⟨hmem, hcrit⟩ := List.mem_filter.mp hf3
    exact ⟨f, hmem, hcrit, rfl⟩

theorem extractCriticalIssues_spec_witness :
    ∃ f, f ∈ [recCriticalIssue] ∧ isCriticalRecord f = true ∧
      "Broken update (jira)" = renderCritical f :=
  (extractCriticalIssues_spec [recCriticalIssue]).2.2 "Broken update (jira)" (by decide)

/-- Claim C7: any six distinct records whose content contains "tcp" drive the
Transport layer to issueCount 6 and status critical, and per-layer status is
critical iff at least 5 issues, warning iff at least 2 (and fewer than 5),
healthy otherwise. -/
theorem transport_six_tcp_critical :
    (∀ feedback : List FeedbackItem,
      feedback.length = 6 →
      feedback.Nodup →
      (∀ f ∈ feedback, strIncludes (lowerStr f.content) "tcp" = true) →
      (analyzeNetworkLayers feedback).get? 3 = some
        { name := "Transport Layer", status := .critical, issueCount := 6,
          description := "TCP/UDP, port management, QoS" }) ∧
    (∀ n : Nat,
      (layerStatusFor n = .critical ↔ 5 ≤ n) ∧
      (layerStatusFor n = .warning ↔ 2 ≤ n ∧ n < 5) ∧
      (layerStatusFor n = .healthy ↔ n < 2)) := by
  constructor
  · intro feedback hlen _hnd hall
    have hcount : countLayer transportKeywords feedback = 6 := by
      have hp : ∀ f ∈ feedback,
          (transportKeywords.any fun kw => strIncludes (layerText f) kw) = true := by
        intro f hf
        have h1 := hall f hf
        have hne : (f.content == "") = false := by
          by_cases hc : f.content = ""
          · rw [hc] at h1
            exact absurd h1 (by decide)
          · exact beq_eq_false_iff_ne.mpr hc
        have hlt : layerText f = lowerStr f.content := by
          simp [layerText, hne]
        simp [transportKeywords, hlt, h1]
      simp only [countLayer]
      rw [List.countP_eq_length.mpr hp]
      exact hlen
    simp only [analyzeNetworkLayers]
    rw [hcount]
    rfl
  · intro n
    unfold layerStatusFor
    split_ifs with h5 h2 <;> refine ⟨?_, ?_, ?_⟩ <;> constructor <;> intro h <;>
      first
        | rfl
        | omega
        | (simp at h)

theorem transport_six_tcp_critical_witness :
    (analyzeNetworkLayers sixTcpRecords).get? 3 = some
      { name := "Transport Layer", status := .critical, issueCount := 6,
        description := "TCP/UDP, port management, QoS" } :=
  transport_six_tcp_critical.1 sixTcpRecords (by decide) (by decide) (by decide)
/-- Claim C3 counterexample: a Cache Gateway failure is not caught inside
`getSummary`, `getInsights` or `generateVisualization` — with a throwing
cache `get`, each call propagates the error to its caller instead of
returning a result object. -/
theorem gateway_failure_reaches_caller :
    getSummaryE envCacheDown ⟨none, 0⟩ = .error () ∧
    getInsightsE envCacheDown ⟨none, 0⟩ = .error () ∧
    generateVisualizationE envCacheDown = .error () :=
  ⟨rfl, rfl, rfl⟩

/-- Claim C3 (amended): failures of the Data Gateway and the AI Gateway
never reach the caller — whenever the cache `get` does not throw and the
cache `put` succeeds, `getSummary`, `getInsights` and `generateVisualization`
return a structurally valid result for every database and AI behaviour. Only
a Cache Gateway failure propagates. -/
theorem pipeline_total_when_cache_ok :
    ∀ (env : EnvM) (st : RunState),
      env.cacheSummary ≠ .error () →
      env.cacheInsights ≠ .error () →
      env.cacheViz ≠ .error () →
      env.cachePutOk getSummaryCacheKey = true →
      env.cachePutOk getInsightsCacheKey = true →
      env.cachePutOk generateVisualizationCacheKey = true →
      (∃ r, getSummaryE env st = .ok r) ∧
      (∃ r, getInsightsE env st = .ok r) ∧
      (∃ v, generateVisualizationE env = .ok v) := by
  intro env st hS hI hV hps hpi hpv
  refine ⟨?_, ?_, ?_⟩
  · cases hc : env.cacheSummary with
    | error e => cases e; exact absurd hc hS
    | ok o =>
      cases o with
      | some v => exact ⟨(v, st), by simp [getSummaryE, hc]⟩
      | none =>
        exact ⟨analyzeFeedbackSummaryE env st (aggregateAllFeedbackE env),
          by simp [getSummaryE, hc, hps]⟩
  · cases hc : env.cacheInsights with
    | error e => cases e; exact absurd hc hI
    | ok o =>
      cases o with
      | some v => exact ⟨(v, st), by simp [getInsightsE, hc]⟩
      | none =>
        exact ⟨generateInsightsE env.dayStart env.aiRun env.parseSentiment st
            (aggregateAllFeedbackE env),
          by simp [getInsightsE, hc, hpi]⟩
  · cases hc : env.cacheViz with
    | error e => cases e; exact absurd hc hV
    | ok o =>
      cases o with
      | some v => exact ⟨v, by simp [generateVisualizationE, hc]⟩
      | none =>
        exact ⟨createVisualizationData env.nowIso env.nowLocale
            (analyzeNetworkLayers (getNetworkFeedbackE env)),
          by simp [generateVisualizationE, hc, hpv]⟩

theorem pipeline_total_when_cache_ok_witness :
    (∃ r, getSummaryE envCacheOkRestDown ⟨none, 0⟩ = .ok r) ∧
    (∃ r, getInsightsE envCacheOkRestDown ⟨none, 0⟩ = .ok r) ∧
    (∃ v, generateVisualizationE envCacheOkRestDown = .ok v) :=
  pipeline_total_when_cache_ok envCacheOkRestDown ⟨none, 0⟩
    (by simp [envCacheOkRestDown]) (by simp [envCacheOkRestDown])
    (by simp [envCacheOkRestDown]) rfl rfl rfl
/-- When the current-window count has reached the budget, every quota check
denies and leaves the entry untouched. -/
theorem canMakeAIRequest_denied_of_exhausted (c d n : Nat)
    (hc : CLOUDFLARE_LIMITS.AI_TOKENS_PER_DAY - CLOUDFLARE_LIMITS.AI_RESERVED_TOKENS ≤ c) :
    canMakeAIRequest (some ⟨c, d⟩) d n = (false, some ⟨c, d⟩) := by
  simp only [CLOUDFLARE_LIMITS] at hc
  simp [canMakeAIRequest, rolloverQuota, quotaResetTime, quotaCount, CLOUDFLARE_LIMITS]
  omega

theorem analyzeSentimentTrendsE_denied (d : Nat) (a : Nat → String → Except Unit String)
    (p : String → Except Unit SentimentAnalysis) (c calls : Nat) (fb : List FeedbackItem)
    (hc : CLOUDFLARE_LIMITS.AI_TOKENS_PER_DAY - CLOUDFLARE_LIMITS.AI_RESERVED_TOKENS ≤ c) :
    analyzeSentimentTrendsE d a p ⟨some ⟨c, d⟩, calls⟩ fb =
      (sentimentDeniedDefault, ⟨some ⟨c, d⟩, calls⟩) := by
  simp [analyzeSentimentTrendsE, canMakeAIRequest_denied_of_exhausted c d 2000 hc]

theorem extractAdvancedTrendingTopicsE_denied (d : Nat)
    (a : Nat → String → Except Unit String) (c calls : Nat) (fb : List FeedbackItem)
    (hc : CLOUDFLARE_LIMITS.AI_TOKENS_PER_DAY - CLOUDFLARE_LIMITS.AI_RESERVED_TOKENS ≤ c) :
    extractAdvancedTrendingTopicsE d a ⟨some ⟨c, d⟩, calls⟩ fb =
      (trendingFallback, ⟨some ⟨c, d⟩, calls⟩) := by
  simp [extractAdvancedTrendingTopicsE, canMakeAIRequest_denied_of_exhausted c d, hc]

theorem generateAdvancedRecommendationsE_denied (d : Nat)
    (a : Nat → String → Except Unit String) (c calls : Nat) (fb : List FeedbackItem)
    (sa : SentimentAnalysis)
    (hc : CLOUDFLARE_LIMITS.AI_TOKENS_PER_DAY - CLOUDFLARE_LIMITS.AI_RESERVED_TOKENS ≤ c) :
    generateAdvancedRecommendationsE d a ⟨some ⟨c, d⟩, calls⟩ fb sa =
      (recommendationsFallback, ⟨some ⟨c, d⟩, calls⟩) := by
  simp [generateAdvancedRecommendationsE, canMakeAIRequest_denied_of_exhausted c d, hc]

theorem generateInsightsE_denied (d : Nat) (a : Nat → String → Except Unit String)
    (p : String → Except Unit SentimentAnalysis) (c calls : Nat) (fb : List FeedbackItem)
    (hc : CLOUDFLARE_LIMITS.AI_TOKENS_PER_DAY - CLOUDFLARE_LIMITS.AI_RESERVED_TOKENS ≤ c) :
    generateInsightsE d a p ⟨some ⟨c, d⟩, calls⟩ fb =
      ({ criticalIssues := extractCriticalIssues fb
         trendingTopics := trendingFallback
         recommendations := recommendationsFallback
         priorityActions := generateDynamicPriorityActions fb (generatePriorityMatrix fb)
         sentimentAnalysis := sentimentDeniedDefault
         priorityMatrix := generatePriorityMatrix fb
         userJourneyInsights := analyzeUserJourneys fb }, ⟨some ⟨c, d⟩, calls⟩) := by
  simp [generateInsightsE, analyzeSentimentTrendsE_denied d a p c calls fb hc,
    extractAdvancedTrendingTopicsE_denied d a c calls fb hc,
    generateAdvancedRecommendationsE_denied d a c calls fb sentimentDeniedDefault hc]

/-- Claim C9: with the AI path disabled (current-window usage at or above
`hardLimit - reservedMargin`, so every quota check denies), the insights
computation is independent of the AI gateway and JSON-parse behaviour, leaves
the quota state unchanged, and a second run over the same batch returns the
identical result. -/
theorem insights_deterministic_when_quota_exhausted :
    ∀ (dayStart : Nat) (a1 a2 : Nat → String → Except Unit String)
      (p1 p2 : String → Except Unit SentimentAnalysis) (st : RunState)
      (feedback : List FeedbackItem) (c : Nat),
      st.quota = some ⟨c, dayStart⟩ →
      CLOUDFLARE_LIMITS.AI_TOKENS_PER_DAY - CLOUDFLARE_LIMITS.AI_RESERVED_TOKENS ≤ c →
      generateInsightsE dayStart a1 p1 st feedback =
        generateInsightsE dayStart a2 p2 st feedback ∧
      (generateInsightsE dayStart a1 p1 st feedback).2 = st ∧
      generateInsightsE dayStart a1 p1
          (generateInsightsE dayStart a1 p1 st feedback).2 feedback =
        generateInsightsE dayStart a1 p1 st feedback := by
  intro d a1 a2 p1 p2 st fb c hq hc
  obtain ⟨q, calls⟩ := st
  simp only [RunState.quota] at hq
  subst hq
  have h1 := generateInsightsE_denied d a1 p1 c calls fb hc
  have h2 := generateInsightsE_denied d a2 p2 c calls fb hc
  refine ⟨by rw [h1, h2], by rw [h1], ?_⟩
  rw [h1]
  exact h1

theorem insights_deterministic_witness :
    generateInsightsE 0 (fun _ _ => .ok "great") (fun _ => .error ())
        ⟨some ⟨90000, 0⟩, 0⟩ [] =
      generateInsightsE 0 (fun _ _ => .error ()) (fun _ => .ok sentimentCatchDefault)
        ⟨some ⟨90000, 0⟩, 0⟩ [] :=
  (insights_deterministic_when_quota_exhausted 0 (fun _ _ => .ok "great")
    (fun _ _ => .error ()) (fun _ => .error ()) (fun _ => .ok sentimentCatchDefault)
    ⟨some ⟨90000, 0⟩, 0⟩ [] 90000 rfl (by decide)).1
